import Mathlib

/-!
Shallow embedding of the OAuth token-lifecycle core of `src/app.js`
(SMS tutorial server): the token storage object, the refresh and
token-acquisition functions, the pending-state registry with its
periodic sweep, and the two HTTP handlers that drive them
(`GET /login/oauth2/code/goto` and `POST /api/send-sms`).

Modelling conventions:
* JavaScript timestamps (`Date.now()`, `expiresAt`) are `Int`
  milliseconds; provider `expires_in` is `Int` seconds.
* Nullable JS values are `Option`; JS truthiness of a string is
  "present and non-empty", of a number "present and non-zero".
* The `pendingStates` `Map` is an association list `List (String × Int)`
  from state token to creation timestamp; `Map` keys are unique, which
  a `Nodup` hypothesis records where a proof needs it.
* Network effects (token endpoint, SMS endpoint) are oracles passed in
  as parameters; a result carries the count of network calls made.
-/

namespace SMSApp

/-- JS truthiness of an optional string: `!x` is false exactly when the
value is present and non-empty (`undefined`, `null` and `""` are falsy). -/
def truthyStr (o : Option String) : Bool :=
  match o with
  | none => false
  | some s => s != ""

/-- JS truthiness of an optional number: `undefined`, `null` and `0` are
falsy (`NaN` is not modelled; timestamps and lifetimes are integers). -/
def truthyInt (o : Option Int) : Bool :=
  match o with
  | none => false
  | some n => n != 0

/-- The mutable `tokenStorage` object of `app.js`: access token, refresh
token and absolute expiry instant, each initially `null`. -/
structure TokenStorage where
  accessToken : Option String
  refreshToken : Option String
  expiresAt : Option Int
deriving Repr, DecidableEq

/-- The initial (and cleared) storage: all three fields `null`. -/
def emptyStorage : TokenStorage := ⟨none, none, none⟩

/-- The `.token` payload of a provider token response:
`{access_token, refresh_token, expires_in}`, any field possibly absent. -/
structure TokenResponse where
  access_token : Option String
  refresh_token : Option String
  expires_in : Option Int
deriving Repr, DecidableEq

/-- `tokenStorage.setTokens(tokenResponse)`: overwrites all three fields;
`expiresIn` is `tokenResponse.token.expires_in || 3600` (so an absent OR
zero `expires_in` falls back to 3600), and
`expiresAt = Date.now() + (expiresIn - 60) * 1000`. -/
def setTokens (now : Int) (r : TokenResponse) : TokenStorage :=
  let expiresIn : Int :=
    match r.expires_in with
    | none => 3600
    | some e => if e = 0 then 3600 else e
  { accessToken := r.access_token
    refreshToken := r.refresh_token
    expiresAt := some (now + (expiresIn - 60) * 1000) }

/-- `tokenStorage.isTokenValid()`:
`this.accessToken && this.expiresAt && Date.now() < this.expiresAt`,
read as a boolean (JS `&&` chain in boolean position). -/
def isTokenValid (ts : TokenStorage) (now : Int) : Bool :=
  truthyStr ts.accessToken && truthyInt ts.expiresAt &&
    decide (now < ts.expiresAt.getD 0)

/-- `tokenStorage.getAccessToken()`:
`this.isTokenValid() ? this.accessToken : null`. -/
def getAccessToken (ts : TokenStorage) (now : Int) : Option String :=
  if isTokenValid ts now then ts.accessToken else none

/-- `tokenStorage.clearTokens()`: all three fields reset to `null`. -/
def clearTokens (_ts : TokenStorage) : TokenStorage := emptyStorage

/-- Outcome of one call to the provider token endpoint
(`oauthClient.getToken`): a resolved token response, or a rejection
(the `catch` branch fires). -/
inductive TokenEndpoint where
  | success (resp : TokenResponse)
  | failure
deriving Repr, DecidableEq

/-- Result of `refreshAccessToken` / `getValidAccessToken`: the returned
value (`string | null`), the token storage afterwards, and how many
network calls to the token endpoint were made. -/
structure RefreshResult where
  result : Option String
  store : TokenStorage
  networkCalls : Nat
deriving Repr, DecidableEq

/-- `refreshAccessToken()`: returns `null` at once if
`!tokenStorage.refreshToken`; otherwise makes one `getToken` call with
`grant_type: refresh_token`; on success stores the response via
`setTokens` and returns `tokenStorage.getAccessToken()`; on rejection
clears the storage and returns `null`. -/
def refreshAccessToken (ts : TokenStorage) (now : Int)
    (endpoint : TokenEndpoint) : RefreshResult :=
  if !truthyStr ts.refreshToken then
    ⟨none, ts, 0⟩
  else
    match endpoint with
    | .success resp =>
      let ts' := setTokens now resp
      ⟨getAccessToken ts' now, ts', 1⟩
    | .failure => ⟨none, clearTokens ts, 1⟩

/-- `getValidAccessToken()`: serves `tokenStorage.getAccessToken()` with
no network call while `isTokenValid()`, else delegates to
`refreshAccessToken()`. -/
def getValidAccessToken (ts : TokenStorage) (now : Int)
    (endpoint : TokenEndpoint) : RefreshResult :=
  if isTokenValid ts now then
    ⟨getAccessToken ts now, ts, 0⟩
  else
    refreshAccessToken ts now endpoint

/-- The `pendingStates` map: state token → `{timestamp}`. -/
abbrev StateRegistry := List (String × Int)

/-- `pendingStates.has(s)`. -/
def hasState (m : StateRegistry) (s : String) : Bool :=
  m.any (fun p => p.1 == s)

/-- `pendingStates.delete(s)`: removes the entry with key `s`
(`Map` keys are unique, so removing every pair with that key agrees). -/
def deleteState (m : StateRegistry) (s : String) : StateRegistry :=
  m.filter (fun p => p.1 != s)

/-- `pendingStates.set(s, {timestamp: now})` as done by
`generateAuthUrl()`: records the freshly issued state with the current
timestamp (overwriting any entry with the same key, as `Map.set` does). -/
def setState (m : StateRegistry) (s : String) (now : Int) : StateRegistry :=
  (s, now) :: deleteState m s

/-- The 10-minute TTL of a pending state, in milliseconds
(`10 * 60 * 1000` in the sweep). -/
def stateTTL : Int := 10 * 60 * 1000

/-- The body of the `setInterval` cleanup: deletes every entry with
`now - data.timestamp > 10 * 60 * 1000`, keeps the rest. -/
def sweepStates (m : StateRegistry) (now : Int) : StateRegistry :=
  m.filter (fun p => !decide (now - p.2 > stateTTL))

/-- The state-validation prefix of the callback handler
(`app.js:237-244`): fails (403, "Invalid state parameter") when
`!receivedState || !pendingStates.has(receivedState)`, else deletes the
state and proceeds with the remaining registry. -/
def validateAndConsume (m : StateRegistry) (s : Option String) :
    Option StateRegistry :=
  if !truthyStr s || !hasState m (s.getD "") then
    none
  else
    some (deleteState m (s.getD ""))

/-- Outcome of the one SMS `axios.request`: resolved, or rejected with
an optional HTTP status (`error.response?.status`; `none` models a
network-level error with no response object). -/
inductive SmsOutcome where
  | success
  | failure (status : Option Int)
deriving Repr, DecidableEq

/-- Responses the `GET /login/oauth2/code/goto` handler can produce. -/
inductive CallbackResponse where
  | forbidden          -- 403 `Invalid state parameter`
  | missingCode        -- 400 `Missing authorization code`
  | tokenExchangeFailed -- 500 `Failed to obtain access token`
  | smsSent            -- 200 success
  | smsFailed          -- 500 `Failed to send SMS`
deriving Repr, DecidableEq

/-- Final state of one callback-handler run: the HTTP response, the
pending-state registry and the token storage afterwards. -/
structure CallbackResult where
  response : CallbackResponse
  registry : StateRegistry
  store : TokenStorage
deriving Repr, DecidableEq

/-- The `GET /login/oauth2/code/goto` handler (`app.js:231-330`):
validate-and-consume the `state` query parameter, check `code` is
present, exchange it at the token endpoint (storing the response via
`setTokens`), then send one SMS with the fresh access token. Note that
the SMS `catch` branch only reports 500 — it does not touch the token
storage, whatever the failure status. -/
def oauthCallback (registry : StateRegistry) (store : TokenStorage)
    (now : Int) (state code : Option String)
    (exchange : TokenEndpoint) (sms : SmsOutcome) : CallbackResult :=
  match validateAndConsume registry state with
  | none => ⟨.forbidden, registry, store⟩
  | some registry' =>
    if !truthyStr code then
      ⟨.missingCode, registry', store⟩
    else
      match exchange with
      | .failure => ⟨.tokenExchangeFailed, registry', store⟩
      | .success resp =>
        let store' := setTokens now resp
        match sms with
        | .success => ⟨.smsSent, registry', store'⟩
        | .failure _ => ⟨.smsFailed, registry', store'⟩

/-- The E.164 check of `/api/send-sms`: `/^\+[1-9]\d{1,14}$/`. -/
def isE164 (s : String) : Bool :=
  match s.toList with
  | '+' :: d :: rest =>
    decide ('1' ≤ d) && decide (d ≤ '9') &&
    rest.all (fun c => decide ('0' ≤ c) && decide (c ≤ '9')) &&
    decide (1 ≤ rest.length) && decide (rest.length ≤ 14)
  | _ => false

/-- Responses the `POST /api/send-sms` handler can produce. -/
inductive SendSmsResponse where
  | missingFields      -- 400 missing from/to/message
  | invalidPhone       -- 400 not E.164
  | authRequired       -- 401 `Authentication required`
  | smsSent            -- 200 success
  | authExpired        -- 401 `Authentication expired`, tokens cleared
  | smsError           -- 500 `Failed to send SMS`
deriving Repr, DecidableEq

/-- Final state of one `/api/send-sms` run: the HTTP response, the token
storage and the pending-state registry afterwards (the 401 responses
call `generateAuthUrl()`, which issues a fresh state). -/
structure SendSmsResult where
  response : SendSmsResponse
  store : TokenStorage
  registry : StateRegistry
deriving Repr, DecidableEq

/-- The `POST /api/send-sms` handler (`app.js:337-410`): field and
E.164 validation, `getValidAccessToken()`, then one SMS request; the
`catch` clears the token storage and answers 401 exactly when
`error.response.status === 401`, and answers 500 otherwise. `freshState`
is the random state `generateAuthUrl()` would mint on the 401 paths. -/
def sendSmsHandler (store : TokenStorage) (registry : StateRegistry)
    (now : Int) (phoneFrom phoneTo message : Option String)
    (endpoint : TokenEndpoint) (sms : SmsOutcome)
    (freshState : String) : SendSmsResult :=
  if !truthyStr phoneFrom || !truthyStr phoneTo || !truthyStr message then
    ⟨.missingFields, store, registry⟩
  else if !isE164 (phoneFrom.getD "") || !isE164 (phoneTo.getD "") then
    ⟨.invalidPhone, store, registry⟩
  else
    let r := getValidAccessToken store now endpoint
    if !truthyStr r.result then
      ⟨.authRequired, r.store, setState registry freshState now⟩
    else
      match sms with
      | .success => ⟨.smsSent, r.store, registry⟩
      | .failure status =>
        if status = some 401 then
          ⟨.authExpired, clearTokens r.store, setState registry freshState now⟩
        else
          ⟨.smsError, r.store, registry⟩

/-! ## Helper lemmas -/

/-- Deleting a key from the registry leaves no entry with that key. -/
theorem hasState_deleteState (m : StateRegistry) (s : String) :
    hasState (deleteState m s) s = false := by
  rw [Bool.eq_false_iff]
  intro hcontra
  rw [hasState, List.any_eq_true] at hcontra
  obtain ⟨p, hp, hps⟩ := hcontra
  rw [deleteState, List.mem_filter] at hp
  have h1 : p.1 ≠ s := by simpa using hp.2
  have h2 : p.1 = s := by simpa using hps
  exact h1 h2

/-- With unique keys (a `Map` invariant), two registry entries with the
same key carry the same timestamp. -/
theorem timestamp_unique {m : StateRegistry} {s : String} {t t' : Int}
    (hnodup : (m.map Prod.fst).Nodup)
    (h1 : (s, t) ∈ m) (h2 : (s, t') ∈ m) : t = t' := by
  induction m with
  | nil => cases h1
  | cons p rest ih =>
    rw [List.map_cons, List.nodup_cons] at hnodup
    rcases List.mem_cons.1 h1 with h1' | h1' <;>
      rcases List.mem_cons.1 h2 with h2' | h2'
    · rw [← h1'] at h2'
      exact (Prod.ext_iff.1 h2').2.symm
    · exfalso
      apply hnodup.1
      rw [← h1']
      exact List.mem_map.2 ⟨(s, t'), h2', rfl⟩
    · exfalso
      apply hnodup.1
      rw [← h2']
      exact List.mem_map.2 ⟨(s, t), h1', rfl⟩
    · exact ih hnodup.2 h1' h2'

/-! ## Claim theorems -/

/-- C5: whenever a refresh token is present but the provider rejects the
refresh exchange, `refreshAccessToken` returns the failure sentinel
(`null`) and the token storage is cleared entirely — access token,
refresh token and expiry all absent — after exactly one network call. -/
theorem refresh_failure_clears_store (ts : TokenStorage) (now : Int)
    (h : truthyStr ts.refreshToken = true) :
    refreshAccessToken ts now .failure = ⟨none, emptyStorage, 1⟩ := by
  simp [refreshAccessToken, clearTokens, h]

/-- Witness for C5 at a concrete populated store. -/
theorem refresh_failure_clears_store_witness :
    truthyStr (TokenStorage.mk (some "a") (some "r") (some 99)).refreshToken = true ∧
    refreshAccessToken ⟨some "a", some "r", some 99⟩ 0 .failure = ⟨none, emptyStorage, 1⟩ :=
  ⟨by decide, refresh_failure_clears_store ⟨some "a", some "r", some 99⟩ 0 (by decide)⟩

/-- C6: when the storage holds no refresh token, `refreshAccessToken`
returns the failure sentinel immediately, performs no network call, and
leaves the storage completely unchanged. -/
theorem refresh_no_token_noop (ts : TokenStorage) (now : Int)
    (endpoint : TokenEndpoint)
    (h : truthyStr ts.refreshToken = false) :
    refreshAccessToken ts now endpoint = ⟨none, ts, 0⟩ := by
  simp [refreshAccessToken, h]

/-- Witness for C6 at a concrete store with an access token but no
refresh token. -/
theorem refresh_no_token_noop_witness :
    truthyStr (TokenStorage.mk (some "a") none (some 99)).refreshToken = false ∧
    refreshAccessToken ⟨some "a", none, some 99⟩ 0
        (.success ⟨some "x", some "y", some 3600⟩) = ⟨none, ⟨some "a", none, some 99⟩, 0⟩ :=
  ⟨by decide, refresh_no_token_noop ⟨some "a", none, some 99⟩ 0
    (.success ⟨some "x", some "y", some 3600⟩) (by decide)⟩

/-- C8: for every storage state and clock reading, `getAccessToken`
returns `null` whenever `isTokenValid` is false, and returns exactly the
stored access token — which is then a present, non-empty string — when
`isTokenValid` is true. -/
theorem getAccessToken_never_stale (ts : TokenStorage) (now : Int) :
    (isTokenValid ts now = false → getAccessToken ts now = none) ∧
    (isTokenValid ts now = true →
      getAccessToken ts now = ts.accessToken ∧
      ∃ s, ts.accessToken = some s ∧ s ≠ "") := by
  constructor
  · intro h
    simp [getAccessToken, h]
  · intro h
    refine ⟨by simp [getAccessToken, h], ?_⟩
    have h1 : truthyStr ts.accessToken = true := by
      rw [isTokenValid, Bool.and_assoc, Bool.and_eq_true] at h
      exact h.1
    cases hx : ts.accessToken with
    | none => rw [hx] at h1; exact absurd h1 (by simp [truthyStr])
    | some s =>
      refine ⟨s, rfl, ?_⟩
      rw [hx] at h1
      simpa [truthyStr] using h1

/-- Witness for C8 at a store that is valid at one instant and expired
at a later one. -/
theorem getAccessToken_never_stale_witness :
    (isTokenValid ⟨some "tok", none, some 500⟩ 600 = false ∧
      getAccessToken ⟨some "tok", none, some 500⟩ 600 = none) ∧
    (isTokenValid ⟨some "tok", none, some 500⟩ 100 = true ∧
      getAccessToken ⟨some "tok", none, some 500⟩ 100 = some "tok") :=
  ⟨⟨by decide, (getAccessToken_never_stale ⟨some "tok", none, some 500⟩ 600).1 (by decide)⟩,
   ⟨by decide, by
      have h := (getAccessToken_never_stale ⟨some "tok", none, some 500⟩ 100).2 (by decide)
      exact h.1⟩⟩

/-- C4: a state value present in the registry is consumed exactly once:
the first `validateAndConsume` succeeds and removes it, after which the
same value fails with `InvalidState` (`none`); a value not in the
registry (never issued, already consumed, or swept) always fails. -/
theorem state_consumed_once (m : StateRegistry) (s : String) (hs : s ≠ "") :
    (hasState m s = true →
      validateAndConsume m (some s) = some (deleteState m s) ∧
      validateAndConsume (deleteState m s) (some s) = none) ∧
    (hasState m s = false → validateAndConsume m (some s) = none) := by
  refine ⟨fun h => ⟨?_, ?_⟩, fun h => ?_⟩
  · simp [validateAndConsume, truthyStr, hs, h]
  · simp [validateAndConsume, truthyStr, hs, hasState_deleteState]
  · simp [validateAndConsume, truthyStr, hs, h]

/-- Witness for C4 on a concrete two-entry registry. -/
theorem state_consumed_once_witness :
    ("abc" : String) ≠ "" ∧
    hasState [("abc", (5 : Int)), ("xyz", 7)] "abc" = true ∧
    validateAndConsume [("abc", (5 : Int)), ("xyz", 7)] (some "abc")
      = some [("xyz", 7)] ∧
    validateAndConsume (deleteState [("abc", (5 : Int)), ("xyz", 7)] "abc")
      (some "abc") = none := by
  have h := state_consumed_once [("abc", (5 : Int)), ("xyz", 7)] "abc" (by decide)
  have h2 := h.1 (by decide)
  exact ⟨by decide, by decide, by rw [h2.1]; decide, h2.2⟩

/-- C7: one sweep run keeps exactly the entries whose age is within the
10-minute TTL and drops every strictly older one; once an over-TTL state
has been swept, `validateAndConsume` on it fails with `InvalidState`
even though it was never consumed. Registry keys are unique (`Map`
invariant), recorded by the `Nodup` hypothesis. -/
theorem sweep_removes_exactly_expired (m : StateRegistry) (now : Int)
    (hnodup : (m.map Prod.fst).Nodup) :
    (∀ p : String × Int, p ∈ sweepStates m now ↔ p ∈ m ∧ now - p.2 ≤ stateTTL) ∧
    (∀ s t, (s, t) ∈ m → now - t > stateTTL → s ≠ "" →
      validateAndConsume (sweepStates m now) (some s) = none) := by
  constructor
  · intro p
    rw [sweepStates, List.mem_filter]
    simp [not_lt]
  · intro s t hmem hold hs
    have hfalse : hasState (sweepStates m now) s = false := by
      rw [Bool.eq_false_iff]
      intro htrue
      rw [hasState, List.any_eq_true] at htrue
      obtain ⟨p, hp, hps⟩ := htrue
      obtain ⟨s', t'⟩ := p
      have hkey : s' = s := by simpa using hps
      rw [sweepStates, List.mem_filter] at hp
      have hyoung : ¬ (now - t' > stateTTL) := by simpa using hp.2
      have hsame : t' = t := timestamp_unique hnodup (hkey ▸ hp.1) hmem
      rw [hsame] at hyoung
      exact hyoung hold
    simp [validateAndConsume, truthyStr, hs, hfalse]

/-- Witness for C7: the spec scenario — state issued at time 0, swept at
11 minutes, then `validateAndConsume` fails. -/
theorem sweep_removes_exactly_expired_witness :
    (List.map Prod.fst [("abc123", (0 : Int))]).Nodup ∧
    (("abc123", (0 : Int)) ∈ [("abc123", (0 : Int))] ∧
      (11 * 60 * 1000 : Int) - 0 > stateTTL) ∧
    validateAndConsume (sweepStates [("abc123", (0 : Int))] (11 * 60 * 1000))
      (some "abc123") = none := by
  refine ⟨by decide, ⟨by decide, by decide⟩, ?_⟩
  exact (sweep_removes_exactly_expired [("abc123", (0 : Int))] (11 * 60 * 1000)
    (by decide)).2 "abc123" 0 (by decide) (by decide) (by decide)

/-- C10: `setTokens` treats `expires_in = 0` exactly like an absent
`expires_in` (the `|| 3600` default applies); and for every provided
lifetime between 1 and 60 seconds the computed expiry instant is not in
the future, so `isTokenValid` is false immediately after the set. -/
theorem setTokens_zero_and_short_lifetimes (now : Int) (t r : Option String) :
    setTokens now ⟨t, r, some 0⟩ = setTokens now ⟨t, r, none⟩ ∧
    (∀ e : Int, 1 ≤ e → e ≤ 60 →
      (setTokens now ⟨t, r, some e⟩).expiresAt = some (now + (e - 60) * 1000) ∧
      now + (e - 60) * 1000 ≤ now ∧
      isTokenValid (setTokens now ⟨t, r, some e⟩) now = false) := by
  constructor
  · simp [setTokens]
  · intro e he1 he60
    have hne : e ≠ 0 := by omega
    have hpast : now + (e - 60) * 1000 ≤ now := by nlinarith
    refine ⟨by simp [setTokens, hne], hpast, ?_⟩
    have hlt : ¬ (now < now + (e - 60) * 1000) := by omega
    simp [isTokenValid, setTokens, hne, hlt]

/-- Witness for C10 at `expires_in = 30`: the token is stored but
already invalid. -/
theorem setTokens_zero_and_short_lifetimes_witness :
    ((1 : Int) ≤ 30 ∧ (30 : Int) ≤ 60) ∧
    (setTokens 1000000 ⟨some "tok", some "ref", some 30⟩).expiresAt
      = some (1000000 + (30 - 60) * 1000) ∧
    isTokenValid (setTokens 1000000 ⟨some "tok", some "ref", some 30⟩) 1000000
      = false := by
  have h := (setTokens_zero_and_short_lifetimes 1000000 (some "tok")
    (some "ref")).2 30 (by decide) (by decide)
  exact ⟨⟨by decide, by decide⟩, h.1, h.2.2⟩

/-- C3 counterexample: calling `set` with `expiresInSeconds = 0` does
NOT store `now + (0 - 60)` seconds as the claim's formula demands; the
falsy check substitutes the 3600 default, so the stored expiry is
`now + 3540` seconds. -/
theorem setTokens_expiry_formula_cex :
    (setTokens 0 ⟨some "tok", some "ref", some 0⟩).expiresAt = some 3540000 ∧
    ¬ ((setTokens 0 ⟨some "tok", some "ref", some 0⟩).expiresAt
        = some ((0 : Int) + (0 - 60) * 1000)) := by decide

/-- C3 (amended): for every provided non-zero `expiresInSeconds` the
stored expiry is `now + (expiresInSeconds - 60)` seconds, with 3600
substituted when it is absent (or zero); after `set(t, r, 3600)` at time
`now` with a non-empty token, `isTokenValid` is true exactly at clock
readings strictly before `now + 3540` seconds. -/
theorem setTokens_expiry_margin (now : Int) (t : String) (r : Option String)
    (e : Int) (ht : t ≠ "") (hnow : 0 ≤ now) (he : e ≠ 0) :
    (setTokens now ⟨some t, r, some e⟩).expiresAt = some (now + (e - 60) * 1000) ∧
    (setTokens now ⟨some t, r, none⟩).expiresAt = some (now + 3540 * 1000) ∧
    (∀ now' : Int, isTokenValid (setTokens now ⟨some t, r, some 3600⟩) now'
        = decide (now' < now + 3540 * 1000)) := by
  refine ⟨by simp [setTokens, he], by norm_num [setTokens], ?_⟩
  intro now'
  simp only [setTokens, isTokenValid, truthyStr, truthyInt]
  norm_num [ht]
  intro _
  omega

/-- Witness for C3 (amended): `set("tok", "ref", 3600)` at `T = 1000`;
valid one millisecond before `T + 3540000`, invalid at the boundary. -/
theorem setTokens_expiry_margin_witness :
    (("tok" : String) ≠ "" ∧ (0 : Int) ≤ 1000 ∧ (120 : Int) ≠ 0) ∧
    (setTokens 1000 ⟨some "tok", some "ref", some 120⟩).expiresAt
      = some (1000 + (120 - 60) * 1000) ∧
    isTokenValid (setTokens 1000 ⟨some "tok", some "ref", some 3600⟩) 3540999
      = true ∧
    isTokenValid (setTokens 1000 ⟨some "tok", some "ref", some 3600⟩) 3541000
      = false := by
  have h := setTokens_expiry_margin 1000 "tok" (some "ref") 120
    (by decide) (by decide) (by decide)
  refine ⟨⟨by decide, by decide, by decide⟩, h.1, ?_, ?_⟩
  · rw [h.2.2 3540999]; decide
  · rw [h.2.2 3541000]; decide

/-- C2 counterexample: on an expired store with a refresh token, a
SUCCESSFUL refresh whose response carries `expires_in = 30` stores the
new access token but `getValidAccessToken` still returns the
authentication-required sentinel (`null`), not the newly stored token —
the claim's "success yields the newly stored access token" fails. -/
theorem getValidAccessToken_short_refresh_cex :
    (getValidAccessToken ⟨none, some "ref", none⟩ 1000000
        (.success ⟨some "newtok", some "newref", some 30⟩)).networkCalls = 1 ∧
    (getValidAccessToken ⟨none, some "ref", none⟩ 1000000
        (.success ⟨some "newtok", some "newref", some 30⟩)).store.accessToken
      = some "newtok" ∧
    (getValidAccessToken ⟨none, some "ref", none⟩ 1000000
        (.success ⟨some "newtok", some "newref", some 30⟩)).result = none := by
  decide

/-- C2 (amended): `getValidAccessToken` serves the cached token with
zero network calls while the store is valid; otherwise, with no refresh
token it returns the sentinel with zero network calls and an unchanged
store, and with a refresh token it performs exactly one refresh, whose
failure clears the store and yields the sentinel and whose success
stores the response and yields the newly stored access token exactly
when the new record is valid at that instant (sentinel otherwise); never
more than one network call per invocation. -/
theorem getValidAccessToken_single_refresh (ts : TokenStorage) (now : Int)
    (endpoint : TokenEndpoint) :
    (getValidAccessToken ts now endpoint).networkCalls ≤ 1 ∧
    (isTokenValid ts now = true →
      getValidAccessToken ts now endpoint = ⟨ts.accessToken, ts, 0⟩) ∧
    (isTokenValid ts now = false → truthyStr ts.refreshToken = false →
      getValidAccessToken ts now endpoint = ⟨none, ts, 0⟩) ∧
    (isTokenValid ts now = false → truthyStr ts.refreshToken = true →
      (endpoint = .failure →
        getValidAccessToken ts now endpoint = ⟨none, emptyStorage, 1⟩) ∧
      (∀ resp, endpoint = .success resp →
        (getValidAccessToken ts now endpoint).networkCalls = 1 ∧
        (getValidAccessToken ts now endpoint).store = setTokens now resp ∧
        (isTokenValid (setTokens now resp) now = true →
          (getValidAccessToken ts now endpoint).result
            = (setTokens now resp).accessToken) ∧
        (isTokenValid (setTokens now resp) now = false →
          (getValidAccessToken ts now endpoint).result = none))) := by
  by_cases hv : isTokenValid ts now
  · refine ⟨?_, ?_, ?_, ?_⟩
    · simp [getValidAccessToken, hv]
    · intro _
      simp [getValidAccessToken, getAccessToken, hv]
    · intro h
      rw [hv] at h
      cases h
    · intro h
      rw [hv] at h
      cases h
  · rw [Bool.not_eq_true] at hv
    by_cases hr : truthyStr ts.refreshToken
    · refine ⟨?_, ?_, ?_, ?_⟩
      · cases endpoint <;> simp [getValidAccessToken, refreshAccessToken, hv, hr]
      · intro h
        rw [hv] at h
        cases h
      · intro _ h
        rw [hr] at h
        cases h
      · intro _ _
        constructor
        · intro hend
          subst hend
          simp [getValidAccessToken, refreshAccessToken, clearTokens, hv, hr]
        · intro resp hend
          subst hend
          refine ⟨by simp [getValidAccessToken, refreshAccessToken, hv, hr], ?_, ?_, ?_⟩
          · simp [getValidAccessToken, refreshAccessToken, hv, hr]
          · intro hvalid
            simp [getValidAccessToken, refreshAccessToken, getAccessToken, hv, hr, hvalid]
          · intro hinvalid
            simp [getValidAccessToken, refreshAccessToken, getAccessToken, hv, hr, hinvalid]
    · rw [Bool.not_eq_true] at hr
      refine ⟨?_, ?_, ?_, ?_⟩
      · simp [getValidAccessToken, refreshAccessToken, hv, hr]
      · intro h
        rw [hv] at h
        cases h
      · intro _ _
        simp [getValidAccessToken, refreshAccessToken, hv, hr]
      · intro _ h
        rw [hr] at h
        cases h

/-- Witness for C2 (amended): a valid store is served from cache with
zero network calls; an expired store with no refresh token returns the
sentinel with zero network calls. -/
theorem getValidAccessToken_single_refresh_witness :
    isTokenValid ⟨some "tok", some "ref", some 5000⟩ 1000 = true ∧
    getValidAccessToken ⟨some "tok", some "ref", some 5000⟩ 1000 .failure
      = ⟨some "tok", ⟨some "tok", some "ref", some 5000⟩, 0⟩ ∧
    (isTokenValid ⟨some "old", none, some 10⟩ 1000 = false ∧
      truthyStr (TokenStorage.mk (some "old") none (some 10)).refreshToken = false ∧
      getValidAccessToken ⟨some "old", none, some 10⟩ 1000 .failure
        = ⟨none, ⟨some "old", none, some 10⟩, 0⟩) :=
  ⟨by decide,
   (getValidAccessToken_single_refresh ⟨some "tok", some "ref", some 5000⟩
      1000 .failure).2.1 (by decide),
   by decide, by decide,
   (getValidAccessToken_single_refresh ⟨some "old", none, some 10⟩
      1000 .failure).2.2.1 (by decide) (by decide)⟩

/-- C1 counterexample: in the OAuth-callback handler, a messaging-API
call made with a freshly stored token that fails with HTTP 401 does NOT
clear the token storage — the handler answers 500 and the store still
holds the access token, with `isTokenValid` even reporting true. This
refutes the claim's "every code path" universality. -/
theorem downstream_401_clears_store_cex :
    (oauthCallback [("s1", 0)] emptyStorage 0 (some "s1") (some "code1")
        (.success ⟨some "tok", some "ref", some 3600⟩)
        (.failure (some 401))).response = .smsFailed ∧
    (oauthCallback [("s1", 0)] emptyStorage 0 (some "s1") (some "code1")
        (.success ⟨some "tok", some "ref", some 3600⟩)
        (.failure (some 401))).store.accessToken = some "tok" ∧
    isTokenValid (oauthCallback [("s1", 0)] emptyStorage 0 (some "s1")
        (some "code1") (.success ⟨some "tok", some "ref", some 3600⟩)
        (.failure (some 401))).store 0 = true := by
  decide

/-- C1 (amended): in the `/api/send-sms` handler, whenever the
downstream messaging call returns HTTP 401 after a token was served, the
token storage is cleared entirely (all three fields absent) and the
handler reports the authentication-expired error — even if the store was
valid at that moment; the OAuth-callback handler's SMS path does not
share this behaviour. -/
theorem downstream_401_clears_store (ts : TokenStorage) (registry : StateRegistry)
    (now : Int) (phoneFrom phoneTo message : Option String)
    (endpoint : TokenEndpoint) (fresh : String)
    (hf : truthyStr phoneFrom = true) (ht : truthyStr phoneTo = true)
    (hm : truthyStr message = true)
    (hpf : isE164 (phoneFrom.getD "") = true)
    (hpt : isE164 (phoneTo.getD "") = true)
    (htok : truthyStr (getValidAccessToken ts now endpoint).result = true) :
    sendSmsHandler ts registry now phoneFrom phoneTo message endpoint
        (.failure (some 401)) fresh
      = ⟨.authExpired, emptyStorage, setState registry fresh now⟩ := by
  simp [sendSmsHandler, clearTokens, hf, ht, hm, hpf, hpt, htok]

/-- Witness for C1 (amended): a store that is still valid when the
downstream 401 arrives is cleared anyway. -/
theorem downstream_401_clears_store_witness :
    isTokenValid ⟨some "tok", some "ref", some 5000⟩ 1000 = true ∧
    sendSmsHandler ⟨some "tok", some "ref", some 5000⟩ [] 1000
        (some "+15625791776") (some "+17143059601") (some "hello")
        .failure (.failure (some 401)) "ns"
      = ⟨.authExpired, emptyStorage, setState [] "ns" 1000⟩ :=
  ⟨by decide,
   downstream_401_clears_store ⟨some "tok", some "ref", some 5000⟩ [] 1000
     (some "+15625791776") (some "+17143059601") (some "hello") .failure "ns"
     (by decide) (by decide) (by decide) (by decide) (by decide) (by decide)⟩

/-- C9: the callback handler deletes a matching state before it looks at
the authorization code: with a matching state and no code, the request
fails with the 400 missing-code error while the state entry is consumed
and the token storage untouched, and any replay of the same state — now
with a code, against any store and clock — fails with the 403
invalid-state error. -/
theorem callback_consumes_state_before_code (registry : StateRegistry)
    (store store2 : TokenStorage) (now now2 : Int) (s : String)
    (code2 : Option String) (exchange exchange2 : TokenEndpoint)
    (sms sms2 : SmsOutcome)
    (hs : s ≠ "") (hin : hasState registry s = true) :
    oauthCallback registry store now (some s) none exchange sms
      = ⟨.missingCode, deleteState registry s, store⟩ ∧
    (oauthCallback (deleteState registry s) store2 now2 (some s) code2
        exchange2 sms2).response = .forbidden := by
  constructor
  · simp [oauthCallback, validateAndConsume, truthyStr, hs, hin]
  · simp [oauthCallback, validateAndConsume, truthyStr, hs, hasState_deleteState]

/-- Witness for C9: state `"s1"` with no code is consumed and yields the
missing-code error; replaying it with a code yields the 403. -/
theorem callback_consumes_state_before_code_witness :
    ("s1" : String) ≠ "" ∧
    hasState [("s1", (0 : Int))] "s1" = true ∧
    oauthCallback [("s1", (0 : Int))] emptyStorage 0 (some "s1") none
        .failure .success
      = ⟨.missingCode, deleteState [("s1", (0 : Int))] "s1", emptyStorage⟩ ∧
    (oauthCallback (deleteState [("s1", (0 : Int))] "s1") emptyStorage 5
        (some "s1") (some "code1") .failure .success).response = .forbidden := by
  have h := callback_consumes_state_before_code [("s1", (0 : Int))]
    emptyStorage emptyStorage 0 5 "s1" (some "code1") .failure .failure
    .success .success (by decide) (by decide)
  exact ⟨by decide, by decide, h.1, h.2⟩

end SMSApp
